import Mathlib

/-!
Shallow embedding of the serverless-analytics repository
(src/services/analytics_service.py and src/handlers/api_handler.py).

Events are Python dicts with string keys; for the purposes of the claims we
model them as insertion-ordered association lists of string key/value pairs.
External backends (the DynamoDB point store, the S3 archival store and the
Athena SQL service) are modelled as oracle parameters: each call site that
may raise is represented by an `Except String` value carrying the exception
message, mirroring the `try/except Exception as e` structure of the source.
-/

set_option autoImplicit false

/-- A Python dict with string keys and string values, as an insertion-ordered
association list (first binding of a key is its value; `dictSet` updates in
place like Python assignment). -/
abbrev EventData := List (String × String)

/-- `d.get(k)` / `d[k]` lookup: first binding of `k`. -/
def dictGet (d : EventData) (k : String) : Option String :=
  match d with
  | [] => none
  | (k₂, v) :: rest => if k₂ = k then some v else dictGet rest k

/-- Python `d[k] = v`: update the existing binding in place, else append. -/
def dictSet (d : EventData) (k v : String) : EventData :=
  match d with
  | [] => [(k, v)]
  | (k₂, v₂) :: rest =>
      if k₂ = k then (k, v) :: rest else (k₂, v₂) :: dictSet rest k v

/-- Python `d[k] = d.get(k, v)`: keep the current value if present, else set. -/
def dictSetDefault (d : EventData) (k v : String) : EventData :=
  dictSet d k ((dictGet d k).getD v)

/-- Result dict of `AnalyticsService.store_event`:
`{"status": "success", "event_id": ...}`. -/
structure StoreResp where
  status : String
  event_id : String
  deriving Repr, DecidableEq

/-- `AnalyticsService._store_event_to_s3`: parses the timestamp, builds the
`events/year=/month=/day=/` key and calls `s3.put_object`; any exception from
that attempt (modelled by the `s3Attempt` oracle) is caught and logged, and
the function returns normally in every case. -/
def storeEventToS3 (s3Attempt : Except String Unit) : Unit :=
  match s3Attempt with
  | .ok _ => ()
  | .error _ => ()

/-- `AnalyticsService.store_event`: `put_item` on the events table (oracle
`putRes`), then the best-effort S3 archival write, then the success dict built
from `event_data["event_id"]` (a `KeyError` if the key is absent).  Any
exception inside the `try` is re-raised as `Failed to store event: {e}`. -/
def store_event (putRes : EventData → Except String Unit)
    (s3Attempt : Except String Unit) (event_data : EventData) :
    Except String StoreResp :=
  match putRes event_data with
  | .error e => .error ("Failed to store event: " ++ e)
  | .ok _ =>
      let _ := storeEventToS3 s3Attempt
      match dictGet event_data "event_id" with
      | some eid => .ok ⟨"success", eid⟩
      | none => .error ("Failed to store event: " ++ "\x27event_id\x27")

/-- `AnalyticsService.get_event`: `get_item` on the events table (oracle
`getRes` yields the optional `Item`); backend failure is re-raised as
`Failed to get event: {e}`. -/
def get_event (getRes : Except String (Option EventData)) :
    Except String (Option EventData) :=
  match getRes with
  | .error e => .error ("Failed to get event: " ++ e)
  | .ok item => .ok item

/-- `AnalyticsService._group_by_hour` (placeholder: returns items). -/
def group_by_hour (items : List EventData) : List EventData := items

/-- `AnalyticsService._group_by_week` (placeholder: returns items). -/
def group_by_week (items : List EventData) : List EventData := items

/-- `AnalyticsService._group_by_month` (placeholder: returns items). -/
def group_by_month (items : List EventData) : List EventData := items

/-! ## Batch storage (`AnalyticsService.store_events_batch`)

The batch loop slices `events` into chunks of 25 and, inside one
`try`/`except` per chunk, runs for each event: the in-place metadata
injection (`event["timestamp"] = event.get(...)`, then
`event["event_id"] = event.get("event_id", f"{event[\x27user_id\x27]}_...")`,
whose `.get` default is evaluated eagerly, so it raises
`KeyError(\x27user_id\x27)` whenever `user_id` is absent, even when
`event_id` is supplied), then
`writer.put_item` (oracle `putRes`), then `successful.append(event_id)`,
then the swallowed S3 write.  On any exception the handler appends every
dict of the chunk — in its current, possibly mutated state — to `failed`
with the same `str(e)`.  Flushing at `with`-block exit is the `flushRes`
oracle, one outcome per chunk index. -/

/-- One entry of the `failed` list: `{"event": ..., "error": ...}`. -/
structure FailedEntry where
  event : EventData
  error : String
  deriving Repr, DecidableEq

/-- Result dict of `store_events_batch`. -/
structure BatchResult where
  successful : List String
  failed : List FailedEntry
  deriving Repr, DecidableEq

/-- Outcome of the per-event metadata injection (lines 216 to 217 of the
service): either the mutated event plus its `event_id`, or the partially
mutated event (timestamp already set) when `event["user_id"]` raises
`KeyError` because `user_id` is absent. -/
inductive InjectOutcome where
  | ok (ev : EventData) (eid : String)
  | keyError (ev : EventData)
  deriving Repr, DecidableEq

/-- `event["timestamp"] = event.get("timestamp", now.isoformat())` followed by
`event["event_id"] = event.get("event_id", f"{event[\x27user_id\x27]}_{int(now.timestamp())}")`.
The default argument of `.get` is evaluated eagerly, so the f-string lookup
`event[\x27user_id\x27]` runs before `.get` consults `event_id` and raises
`KeyError(\x27user_id\x27)` whenever `user_id` is absent, even when
`event_id` is already present. -/
def injectMeta (nowIso : String) (nowUnix : Nat) (ev : EventData) :
    InjectOutcome :=
  let ev₁ := dictSetDefault ev "timestamp" nowIso
  match dictGet ev₁ "user_id" with
  | none => .keyError ev₁
  | some uid =>
      let eid := (dictGet ev₁ "event_id").getD (uid ++ "_" ++ toString nowUnix)
      .ok (dictSet ev₁ "event_id" eid) eid

/-- The per-event loop inside one chunk, up to the first exception.  Returns
the `event_id`s appended to `successful`, the final (mutated) states of every
dict of the chunk in order, and the exception message if one was raised. -/
def processChunkGo (putRes : EventData → Except String Unit)
    (nowIso : String) (nowUnix : Nat) :
    List EventData → List String × List EventData × Option String
  | [] => ([], [], none)
  | ev :: rest =>
      match injectMeta nowIso nowUnix ev with
      | .keyError ev₁ => ([], ev₁ :: rest, some ("\x27user_id\x27"))
      | .ok ev₁ eid =>
          match putRes ev₁ with
          | .error e => ([], ev₁ :: rest, some e)
          | .ok _ =>
              let r := processChunkGo putRes nowIso nowUnix rest
              (eid :: r.1, ev₁ :: r.2.1, r.2.2)

/-- One chunk of the batch loop: the per-event loop, then the buffered write
flush at `with`-block exit (oracle `flushRes`); on any exception every dict of
the chunk is paired with the shared error message into `failed`, while the
`successful` appends made before the exception are kept. -/
def processChunk (putRes : EventData → Except String Unit)
    (flushRes : Except String Unit) (nowIso : String) (nowUnix : Nat)
    (batch : List EventData) : List String × List FailedEntry :=
  let r := processChunkGo putRes nowIso nowUnix batch
  match r.2.2 with
  | some e => (r.1, r.2.1.map fun ev => ⟨ev, e⟩)
  | none =>
      match flushRes with
      | .error e => (r.1, r.2.1.map fun ev => ⟨ev, e⟩)
      | .ok _ => (r.1, [])

/-- `for i in range(0, len(events), 25): batch = events[i:i + 25]`. -/
def batchChunks (events : List EventData) : List (List EventData) :=
  if events = [] then []
  else events.take 25 :: batchChunks (events.drop 25)
termination_by events.length
decreasing_by
  simp only [List.length_drop]
  rename_i h
  have : events.length ≠ 0 := fun h0 => h (List.length_eq_zero.mp h0)
  omega

/-- `AnalyticsService.store_events_batch`: the chunk loop, accumulating the
`successful` and `failed` lists across chunks; never raises. -/
def store_events_batch (putRes : EventData → Except String Unit)
    (flushRes : Nat → Except String Unit) (nowIso : String) (nowUnix : Nat)
    (events : List EventData) : BatchResult :=
  let step := fun (acc : List String × List FailedEntry)
      (ic : Nat × List EventData) =>
    let r := processChunk putRes (flushRes ic.1) nowIso nowUnix ic.2
    (acc.1 ++ r.1, acc.2 ++ r.2)
  let r := (batchChunks events).enum.foldl step ([], [])
  ⟨r.1, r.2⟩

/-! ## Athena SQL query execution (`AnalyticsService.execute_athena_query`)

The Athena backend is an oracle: `start` models `start_query_execution`
(returning the execution id or raising), `status i` models the state string
returned by the `get_query_execution` call made on attempt `i` together with
its optional `StateChangeReason`, and `rows` is the full backend result set,
of which `get_query_results(MaxResults=1000)` delivers the first 1000 rows.
A result row is the list of its cells, each cell an optional
`VarCharValue`. -/

/-- One row of an Athena result set: the `Data` cell list, each cell with an
optional `VarCharValue`. -/
abbrev AthenaRow := List (Option String)

/-- `QueryExecution.Status` as polled: `State` plus optional
`StateChangeReason`. -/
structure AthenaStatus where
  state : String
  stateChangeReason : Option String
  deriving Repr, DecidableEq

/-- The Athena backend oracle. -/
structure AthenaBackend where
  start : String → Except String String
  status : Nat → AthenaStatus
  rows : List AthenaRow

/-- Return dict of a successful `execute_athena_query`. -/
structure QueryResult where
  query_execution_id : String
  status : String
  results : List EventData
  deriving Repr, DecidableEq

/-- `columns = [col["VarCharValue"] for col in rows[0]["Data"]]`: a `KeyError`
if some header cell has no `VarCharValue`. -/
def extractHeader : AthenaRow → Except String (List String)
  | [] => .ok []
  | none :: _ => .error ("\x27VarCharValue\x27")
  | some v :: rest => (extractHeader rest).map fun cols => v :: cols

/-- `for i, col in enumerate(row["Data"]): row_data[columns[i]] = col.get("VarCharValue", "")`:
an `IndexError` when the row is longer than the header. -/
def parseRowGo (columns : List String) (i : Nat) (acc : EventData) :
    AthenaRow → Except String EventData
  | [] => .ok acc
  | cell :: rest =>
      match columns.get? i with
      | none => .error "list index out of range"
      | some c => parseRowGo columns (i + 1) (dictSet acc c (cell.getD "")) rest

/-- The `for row in rows[1:]` loop of `_parse_athena_results`. -/
def parseDataRows (columns : List String) :
    List AthenaRow → Except String (List EventData)
  | [] => .ok []
  | row :: rest =>
      match parseRowGo columns 0 [] row with
      | .error e => .error e
      | .ok d => (parseDataRows columns rest).map fun ds => d :: ds

/-- `AnalyticsService._parse_athena_results`: empty row list gives `[]`; else
the first row supplies the column names and the remaining rows become
string-keyed dicts. -/
def parseAthenaResults (rows : List AthenaRow) :
    Except String (List EventData) :=
  match rows with
  | [] => .ok []
  | header :: dataRows =>
      match extractHeader header with
      | .error e => .error e
      | .ok columns => parseDataRows columns dataRows

/-- The bounded polling loop (`for attempt in range(max_attempts)`), with its
observable backend interaction: the result, the number of
`get_query_execution` calls made, and the number of `time.sleep(1)` calls
(each one time unit).  `fuel` is the number of remaining attempts, `attempt`
the index of the next one. -/
def pollLoop (b : AthenaBackend) (qid : String) :
    Nat → Nat → Except String QueryResult × Nat × Nat
  | 0, _ => (.error "Query timeout", 0, 0)
  | fuel + 1, attempt =>
      let st := b.status attempt
      if st.state = "SUCCEEDED" then
        match parseAthenaResults (b.rows.take 1000) with
        | .error e => (.error e, 1, 0)
        | .ok results => (.ok ⟨qid, "success", results⟩, 1, 0)
      else if st.state = "FAILED" ∨ st.state = "CANCELLED" then
        (.error ("Query failed: " ++ st.stateChangeReason.getD "Unknown error"),
          1, 0)
      else
        let r := pollLoop b qid fuel (attempt + 1)
        (r.1, r.2.1 + 1, r.2.2 + 1)

/-- `AnalyticsService.execute_athena_query`: submit, poll up to 30 attempts,
fetch and parse results on success; every exception of the `try` body is
re-raised as `Failed to execute Athena query: {e}`. -/
def execute_athena_query (b : AthenaBackend) (sql : String) :
    Except String QueryResult × Nat × Nat :=
  match b.start sql with
  | .error e => (.error ("Failed to execute Athena query: " ++ e), 0, 0)
  | .ok qid =>
      let r := pollLoop b qid 30 0
      match r.1 with
      | .error e => (.error ("Failed to execute Athena query: " ++ e), r.2)
      | .ok res => (.ok res, r.2)

/-- `AnalyticsService.get_analytics`: range query on the aggregations table
(oracle `queryRes` yields the items), then the `group_by` dispatch; backend
failure is re-raised as `Failed to get analytics: {e}`. -/
def get_analytics (queryRes : Except String (List EventData))
    (group_by : String) : Except String (List EventData) :=
  match queryRes with
  | .error e => .error ("Failed to get analytics: " ++ e)
  | .ok items =>
      if group_by = "hour" then .ok (group_by_hour items)
      else if group_by = "day" then .ok items
      else if group_by = "week" then .ok (group_by_week items)
      else if group_by = "month" then .ok (group_by_month items)
      else .ok items

/-! ## Request Router (`src/handlers/api_handler.py`)

Responses are a body plus an HTTP status code (200 when the handler returns a
bare dict). -/

/-- The JSON body shapes the modelled routes produce. -/
inductive RespBody where
  | errObj (msg : String)
  | createdObj (event_id : String)
  | eventObj (ev : EventData)
  | queryObj (query_execution_id : String) (results : List EventData)
  deriving Repr, DecidableEq

/-- A rendered route response: body and HTTP status code. -/
structure RouteResp where
  body : RespBody
  status : Nat
  deriving Repr, DecidableEq

/-- `required_fields = ["user_id", "event_type"]` of the `POST /events`
handler. -/
def requiredFields : List String := ["user_id", "event_type"]

/-- The validation loop of `create_event`: return the first field of
`fields` that is not a key of `body`, in declared order. -/
def firstMissing (body : EventData) : List String → Option String
  | [] => none
  | f :: rest => if dictGet body f = none then some f else firstMissing body rest

/-- `POST /events` handler `create_event`: validate required fields (400 on
the first missing one, before the service is touched), unconditionally
overwrite `timestamp` and `event_id` with generated values, call
`store_event`, and render the success envelope or a 500 `{error}` envelope.
The second component is the event dict passed to the service (`none` when
the service was never invoked). -/
def create_event (putRes : EventData → Except String Unit)
    (s3Attempt : Except String Unit) (nowIso : String) (nowUnix : Nat)
    (body : EventData) : RouteResp × Option EventData :=
  match firstMissing body requiredFields with
  | some f => (⟨.errObj ("Missing required field: " ++ f), 400⟩, none)
  | none =>
      let ev₁ := dictSet body "timestamp" nowIso
      match dictGet ev₁ "user_id" with
      | none => (⟨.errObj ("\x27user_id\x27"), 500⟩, none)
      | some uid =>
          let eid := uid ++ "_" ++ toString nowUnix
          let ev₂ := dictSet ev₁ "event_id" eid
          match store_event putRes s3Attempt ev₂ with
          | .error e => (⟨.errObj e, 500⟩, some ev₂)
          | .ok _ => (⟨.createdObj eid, 200⟩, some ev₂)

/-- `GET /events/{event_id}` handler `get_event`: 404 with
`{"error": "Event not found"}` when the looked-up event is falsy (absent or
an empty dict), the event itself with 200 otherwise, 500 on a service
exception. -/
def get_event_route (getRes : Except String (Option EventData)) : RouteResp :=
  match get_event getRes with
  | .error e => ⟨.errObj e, 500⟩
  | .ok none => ⟨.errObj "Event not found", 404⟩
  | .ok (some ev) =>
      if ev = [] then ⟨.errObj "Event not found", 404⟩
      else ⟨.eventObj ev, 200⟩

/-- `POST /query` handler `execute_query`: 400 when `sql` is missing, else
run the Athena query and render `{status, query_execution_id, results}` on
success or a 500 `{error}` envelope on failure. -/
def execute_query_route (b : AthenaBackend) (body : EventData) : RouteResp :=
  match dictGet body "sql" with
  | none => ⟨.errObj "Missing required field: sql", 400⟩
  | some sql =>
      match (execute_athena_query b sql).1 with
      | .error e => ⟨.errObj e, 500⟩
      | .ok r => ⟨.queryObj r.query_execution_id r.results, 200⟩

/-- A polled status that matches none of the three terminal states. -/
def nonTerminal (st : AthenaStatus) : Prop :=
  st.state ≠ "SUCCEEDED" ∧ st.state ≠ "FAILED" ∧ st.state ≠ "CANCELLED"

/-- First event of the C7 scenario: fully formed, stored successfully. -/
def c7evA : EventData :=
  [("user_id", "u1"), ("event_type", "click"), ("event_id", "E1"),
   ("timestamp", "2024-01-01T00:00:00")]

/-- Second event of the C7 scenario: no `user_id` and no `event_id`, so its
metadata injection raises `KeyError` inside the chunk. -/
def c7evB : EventData := [("event_type", "view")]

/-- The C7 batch call: both events land in one chunk; the second raises
after the first was already recorded as successful. -/
def c7batch : BatchResult :=
  store_events_batch (fun _ => .ok ()) (fun _ => .ok ())
    "2024-01-02T00:00:00" 1704153600 [c7evA, c7evB]

/-- C1: whenever the point-store put succeeds (and the event carries the
`event_id` its callers always inject), `store_event` returns
`{status: success, event_id}`, and the result is identical whatever the
outcome of the archival (S3) write: the archival exception is swallowed
inside the service and never propagated. -/
theorem c1_store_event_archival_independent
    (putRes : EventData → Except String Unit) (ev : EventData) (eid : String)
    (s3a s3b : Except String Unit)
    (hput : putRes ev = .ok ()) (heid : dictGet ev "event_id" = some eid) :
    store_event putRes s3a ev = .ok ⟨"success", eid⟩ ∧
    store_event putRes s3a ev = store_event putRes s3b ev := by
  simp [store_event, hput, heid]

/-- Witness for C1: a concrete event stored with a failing archival write
still reports success, identically to a succeeding archival write. -/
theorem c1_store_event_archival_independent_witness :
    store_event (fun _ => .ok ()) (.error "S3 unavailable")
        [("user_id", "u1"), ("event_type", "click"), ("event_id", "u1_100")] =
      .ok ⟨"success", "u1_100"⟩ ∧
    store_event (fun _ => .ok ()) (.error "S3 unavailable")
        [("user_id", "u1"), ("event_type", "click"), ("event_id", "u1_100")] =
      store_event (fun _ => .ok ()) (.ok ())
        [("user_id", "u1"), ("event_type", "click"), ("event_id", "u1_100")] :=
  c1_store_event_archival_independent (fun _ => .ok ()) _ "u1_100" _ _ rfl
    (by decide)

/-- C8: for every list of aggregation items, `get_analytics` with any
`group_by` among hour, day, week and month returns the queried items
unchanged and in order (the hour/week/month regroupings are pass-through). -/
theorem c8_get_analytics_group_by_identity
    (items : List EventData) (gb : String)
    (hgb : gb = "hour" ∨ gb = "day" ∨ gb = "week" ∨ gb = "month") :
    get_analytics (.ok items) gb = .ok items := by
  rcases hgb with h | h | h | h <;> subst h <;>
    simp [get_analytics, group_by_hour, group_by_week, group_by_month]

/-- Witness for C8: a concrete aggregation list is returned unchanged under
`group_by = "day"`. -/
theorem c8_get_analytics_group_by_identity_witness :
    get_analytics (.ok [[("metric", "page_views"), ("date", "2024-01-01")]])
      "day" = .ok [[("metric", "page_views"), ("date", "2024-01-01")]] :=
  c8_get_analytics_group_by_identity _ "day" (.inr (.inl rfl))

/-- C9: an absent event id yields `.ok none` from the service (a normal
outcome, distinct from the `.error` failure shape) and a 404 not-found
response from the Router, never a 500; a present event (which, as a stored
item, carries its `event_id` key) is returned as-is with status 200. -/
theorem c9_get_event_absent_is_404
    (item : Option EventData)
    (hkey : ∀ ev, item = some ev → dictGet ev "event_id" ≠ none) :
    (item = none → get_event (.ok item) = .ok none ∧
      get_event_route (.ok item) = ⟨.errObj "Event not found", 404⟩) ∧
    (∀ ev, item = some ev → get_event_route (.ok item) = ⟨.eventObj ev, 200⟩) := by
  constructor
  · rintro rfl
    exact ⟨rfl, rfl⟩
  · rintro ev rfl
    have hne : ev ≠ [] := by
      intro h
      exact hkey ev rfl (by simp [h, dictGet])
    simp [get_event_route, get_event, hne]

/-- Witness for C9: the concrete absent lookup renders 404. -/
theorem c9_get_event_absent_is_404_witness :
    ((none : Option EventData) = none →
      get_event (.ok none) = .ok none ∧
      get_event_route (.ok none) = ⟨.errObj "Event not found", 404⟩) ∧
    (∀ ev, (none : Option EventData) = some ev →
      get_event_route (.ok none) = ⟨.eventObj ev, 200⟩) :=
  c9_get_event_absent_is_404 none (fun _ h => nomatch h)

/-- C10: a `POST /events` body missing `user_id` or `event_type` yields a
400 response naming exactly the first missing field in declared order
(`user_id` before `event_type`); no event is passed to the service, and the
response does not depend on the storage oracles at all. -/
theorem c10_create_event_validation_400
    (putRes putRes₂ : EventData → Except String Unit)
    (s3a s3b : Except String Unit) (nowIso : String) (nowUnix : Nat)
    (body : EventData)
    (hmiss : dictGet body "user_id" = none ∨ dictGet body "event_type" = none) :
    (create_event putRes s3a nowIso nowUnix body).2 = none ∧
    (create_event putRes s3a nowIso nowUnix body).1 =
      ⟨.errObj ("Missing required field: " ++
        (if dictGet body "user_id" = none then "user_id" else "event_type")),
        400⟩ ∧
    create_event putRes s3a nowIso nowUnix body =
      create_event putRes₂ s3b nowIso nowUnix body := by
  rcases h : dictGet body "user_id" with _ | u
  · simp [create_event, firstMissing, requiredFields, h]
  · rcases hmiss with h₁ | h₂
    · rw [h] at h₁; cases h₁
    · simp [create_event, firstMissing, requiredFields, h, h₂]

/-- Witness for C10: a concrete body missing `user_id` gets the 400 naming
`user_id`, with no service call. -/
theorem c10_create_event_validation_400_witness :
    (create_event (fun _ => .ok ()) (.ok ()) "2024-01-01T00:00:00" 100
        [("event_type", "click")]).2 = none ∧
    (create_event (fun _ => .ok ()) (.ok ()) "2024-01-01T00:00:00" 100
        [("event_type", "click")]).1 =
      ⟨.errObj ("Missing required field: " ++
        (if dictGet [("event_type", "click")] "user_id" = none then "user_id"
          else "event_type")), 400⟩ ∧
    create_event (fun _ => .ok ()) (.ok ()) "2024-01-01T00:00:00" 100
        [("event_type", "click")] =
      create_event (fun _ => .error "down") (.error "down")
        "2024-01-01T00:00:00" 100 [("event_type", "click")] :=
  c10_create_event_validation_400 _ _ _ _ _ 100 _ (.inl (by decide))

theorem pollLoop_timeout (b : AthenaBackend) (qid : String) :
    ∀ (fuel attempt : Nat),
      (∀ j, j < fuel → nonTerminal (b.status (attempt + j))) →
      pollLoop b qid fuel attempt = (.error "Query timeout", fuel, fuel) := by
  intro fuel
  induction fuel with
  | zero => intro attempt _; rfl
  | succ f ih =>
      intro attempt h
      have h0 := h 0 (Nat.succ_pos _)
      rw [Nat.add_zero] at h0
      have ihx := ih (attempt + 1) (fun j hj => by
        have hx := h (j + 1) (by omega)
        have harith : attempt + (j + 1) = attempt + 1 + j := by omega
        rwa [harith] at hx)
      simp [pollLoop, h0.1, h0.2.1, h0.2.2, ihx]

theorem pollLoop_reach (b : AthenaBackend) (qid : String) :
    ∀ (k fuel attempt : Nat), k < fuel →
      (∀ j, j < k → nonTerminal (b.status (attempt + j))) →
      pollLoop b qid fuel attempt =
        ((pollLoop b qid (fuel - k) (attempt + k)).1,
         (pollLoop b qid (fuel - k) (attempt + k)).2.1 + k,
         (pollLoop b qid (fuel - k) (attempt + k)).2.2 + k) := by
  intro k
  induction k with
  | zero => intro fuel attempt _ _; simp
  | succ n ih =>
      intro fuel attempt hk h
      match fuel, hk with
      | f + 1, hk =>
          have h0 := h 0 (Nat.succ_pos _)
          rw [Nat.add_zero] at h0
          have ihx := ih f (attempt + 1) (by omega) (fun j hj => by
            have hx := h (j + 1) (by omega)
            have harith : attempt + (j + 1) = attempt + 1 + j := by omega
            rwa [harith] at hx)
          have harith₂ : attempt + 1 + n = attempt + (n + 1) := by omega
          have harith₃ : f - n = f + 1 - (n + 1) := by omega
          rw [harith₂, harith₃] at ihx
          simp only [pollLoop, h0.1, h0.2.1, h0.2.2, if_neg, ite_false]
          simp [h0.1, h0.2.1, h0.2.2, ihx]
          omega

theorem pollLoop_counts_le (b : AthenaBackend) (qid : String) :
    ∀ (fuel attempt : Nat),
      (pollLoop b qid fuel attempt).2.1 ≤ fuel ∧
      (pollLoop b qid fuel attempt).2.2 ≤ fuel := by
  intro fuel
  induction fuel with
  | zero => intro attempt; simp [pollLoop]
  | succ f ih =>
      intro attempt
      simp only [pollLoop]
      split
      · split <;> simp
      · split
        · simp
        · have := ih (attempt + 1)
          constructor
          · simpa using Nat.add_le_add_right this.1 1
          · simpa using Nat.add_le_add_right this.2 1

/-- C6: the polling loop is bounded: with no terminal state in the first 30
polls the query fails with the timeout error after exactly 30 status polls
and 30 one-unit sleeps, and for every backend whatsoever the loop makes at
most 30 polls and at most 30 sleeps. -/
theorem c6_query_polling_bounded (b : AthenaBackend) (sql qid : String)
    (hstart : b.start sql = .ok qid)
    (hnt : ∀ i, i < 30 → nonTerminal (b.status i)) :
    execute_athena_query b sql =
      (.error "Failed to execute Athena query: Query timeout", 30, 30) ∧
    (∀ (b₂ : AthenaBackend) (sql₂ : String),
      (execute_athena_query b₂ sql₂).2.1 ≤ 30 ∧
      (execute_athena_query b₂ sql₂).2.2 ≤ 30) := by
  constructor
  · have hp := pollLoop_timeout b qid 30 0 (fun j hj => by simpa using hnt j hj)
    simp [execute_athena_query, hstart, hp]
  · intro b₂ sql₂
    obtain ⟨hp1, hp2⟩ := pollLoop_counts_le b₂ qid 30 0
    cases hs : b₂.start sql₂ with
    | error e => simp [execute_athena_query, hs]
    | ok qid₂ =>
        obtain ⟨hq1, hq2⟩ := pollLoop_counts_le b₂ qid₂ 30 0
        cases hr : (pollLoop b₂ qid₂ 30 0).1 <;>
          simp [execute_athena_query, hs, hr] <;> exact ⟨hq1, hq2⟩

/-- Witness for C6: a backend that reports RUNNING forever produces the
timeout failure after exactly 30 polls and 30 sleeps. -/
theorem c6_query_polling_bounded_witness :
    execute_athena_query
        ⟨fun _ => .ok "qx", fun _ => ⟨"RUNNING", none⟩, []⟩ "SELECT 1" =
      (.error "Failed to execute Athena query: Query timeout", 30, 30) ∧
    (∀ (b₂ : AthenaBackend) (sql₂ : String),
      (execute_athena_query b₂ sql₂).2.1 ≤ 30 ∧
      (execute_athena_query b₂ sql₂).2.2 ≤ 30) :=
  c6_query_polling_bounded _ "SELECT 1" "qx" rfl
    (fun _ _ => ⟨by simp, by simp, by simp⟩)

/-- C5: when the first terminal status the loop sees (at some attempt
`k < 30`) is FAILED or CANCELLED with a stated reason, the query raises
`Failed to execute Athena query: Query failed: {reason}`; the Router
renders that as a 500 `{error}` envelope carrying the reason, with no
results in the response. -/
theorem c5_failed_query_surfaces_reason (b : AthenaBackend)
    (sql qid rsn : String) (k : Nat)
    (hstart : b.start sql = .ok qid) (hk : k < 30)
    (hpre : ∀ j, j < k → nonTerminal (b.status j))
    (hterm : (b.status k).state = "FAILED" ∨ (b.status k).state = "CANCELLED")
    (hrsn : (b.status k).stateChangeReason = some rsn) :
    (execute_athena_query b sql).1 =
      .error ("Failed to execute Athena query: Query failed: " ++ rsn) ∧
    (∀ body, dictGet body "sql" = some sql →
      execute_query_route b body =
        ⟨.errObj ("Failed to execute Athena query: Query failed: " ++ rsn),
          500⟩) ∧
    (∃ pre post,
      "Failed to execute Athena query: Query failed: " ++ rsn =
        pre ++ rsn ++ post) := by
  have hreach := pollLoop_reach b qid k 30 0 hk (fun j hj => by
    simpa using hpre j hj)
  obtain ⟨m, hm⟩ : ∃ m, 30 - k = m + 1 := ⟨29 - k, by omega⟩
  rw [hm] at hreach
  have hSne : (b.status k).state ≠ "SUCCEEDED" := by
    rcases hterm with h | h <;> rw [h] <;> decide
  have hloop : (pollLoop b qid 30 0).1 =
      .error ("Query failed: " ++ rsn) := by
    rw [hreach]
    simp [pollLoop, Nat.zero_add, hSne, hterm, hrsn]
  have hmain : (execute_athena_query b sql).1 =
      .error ("Failed to execute Athena query: Query failed: " ++ rsn) := by
    have hflat : "Failed to execute Athena query: " ++ "Query failed: " =
        "Failed to execute Athena query: Query failed: " := rfl
    simp only [execute_athena_query, hstart, hloop, ← String.append_assoc,
      hflat]
  refine ⟨hmain, ?_, ?_⟩
  · intro body hbody
    simp [execute_query_route, hbody, hmain]
  · exact ⟨"Failed to execute Athena query: Query failed: ", "", by simp⟩

/-- Witness for C5: a backend reporting FAILED with reason `syntax error`
on the first poll surfaces that reason in a 500 error envelope. -/
theorem c5_failed_query_surfaces_reason_witness :
    (execute_athena_query
        ⟨fun _ => .ok "qf", fun _ => ⟨"FAILED", some "syntax error"⟩, []⟩
        "SELECT x FROM").1 =
      .error "Failed to execute Athena query: Query failed: syntax error" ∧
    (∀ body, dictGet body "sql" = some "SELECT x FROM" →
      execute_query_route
          ⟨fun _ => .ok "qf", fun _ => ⟨"FAILED", some "syntax error"⟩, []⟩
          body =
        ⟨.errObj
          "Failed to execute Athena query: Query failed: syntax error",
          500⟩) ∧
    (∃ pre post,
      "Failed to execute Athena query: Query failed: " ++ "syntax error" =
        pre ++ "syntax error" ++ post) := by
  have h := c5_failed_query_surfaces_reason
    ⟨fun _ => .ok "qf", fun _ => ⟨"FAILED", some "syntax error"⟩, []⟩
    "SELECT x FROM" "qf" "syntax error" 0 rfl (by omega)
    (fun j hj => absurd hj (by omega)) (.inl rfl) rfl
  simpa using h

theorem dictSet_mem_key (acc : EventData) (c v k w : String)
    (h : (k, w) ∈ dictSet acc c v) : k = c ∨ ∃ w₂, (k, w₂) ∈ acc := by
  induction acc with
  | nil =>
      simp only [dictSet, List.mem_singleton, Prod.mk.injEq] at h
      exact .inl h.1
  | cons p rest ih =>
      obtain ⟨k₂, v₂⟩ := p
      simp only [dictSet] at h
      by_cases hc : k₂ = c
      · rw [if_pos hc] at h
        rcases List.mem_cons.mp h with h | h
        · exact .inl (Prod.mk.injEq .. ▸ h).1
        · exact .inr ⟨w, List.mem_cons_of_mem _ h⟩
      · rw [if_neg hc] at h
        rcases List.mem_cons.mp h with h | h
        · obtain ⟨h1, h2⟩ := Prod.mk.injEq .. ▸ h
          exact .inr ⟨v₂, by rw [h1]; exact List.mem_cons_self _ _⟩
        · rcases ih h with h | ⟨w₂, hw⟩
          · exact .inl h
          · exact .inr ⟨w₂, List.mem_cons_of_mem _ hw⟩

theorem parseRowGo_keys (cols : List String) :
    ∀ (row : AthenaRow) (i : Nat) (acc d : EventData),
      parseRowGo cols i acc row = .ok d →
      ∀ k v, (k, v) ∈ d → (∃ w, (k, w) ∈ acc) ∨ k ∈ cols := by
  intro row
  induction row with
  | nil =>
      intro i acc d h k v hkv
      simp only [parseRowGo] at h
      cases h
      exact .inl ⟨v, hkv⟩
  | cons cell rest ih =>
      intro i acc d h k v hkv
      simp only [parseRowGo] at h
      cases hc : cols.get? i with
      | none => rw [hc] at h; cases h
      | some c =>
          rw [hc] at h
          rcases ih (i + 1) (dictSet acc c (cell.getD "")) d h k v hkv with
            ⟨w, hw⟩ | hmem
          · rcases dictSet_mem_key acc c (cell.getD "") k w hw with
              heq | ⟨w₂, hw₂⟩
            · exact .inr (heq ▸ List.get?_mem hc)
            · exact .inl ⟨w₂, hw₂⟩
          · exact .inr hmem

theorem parseDataRows_spec (cols : List String) :
    ∀ (l : List AthenaRow) (ds : List EventData),
      parseDataRows cols l = .ok ds →
      ds.length = l.length ∧
      ∀ d ∈ ds, ∀ kv ∈ d, kv.1 ∈ cols := by
  intro l
  induction l with
  | nil =>
      intro ds h
      simp only [parseDataRows] at h
      cases h
      simp
  | cons row rest ih =>
      intro ds h
      simp only [parseDataRows] at h
      cases hr : parseRowGo cols 0 [] row with
      | error e => rw [hr] at h; cases h
      | ok d =>
          rw [hr] at h
          cases hds : parseDataRows cols rest with
          | error e => rw [hds] at h; cases h
          | ok ds₂ =>
              rw [hds] at h
              simp only [Except.map] at h
              cases h
              obtain ⟨hlen, hkeys⟩ := ih ds₂ hds
              refine ⟨by simp [hlen], ?_⟩
              intro d₂ hd₂ kv hkv
              rcases List.mem_cons.mp hd₂ with h | h
              · subst h
                obtain ⟨k, v⟩ := kv
                rcases parseRowGo_keys cols row 0 [] d₂ hr k v hkv with
                  ⟨w, hw⟩ | hmem
                · cases hw
                · exact hmem
              · exact hkeys d₂ h kv hkv

theorem pollLoop_success (b : AthenaBackend) (qid : String) (k : Nat)
    (hk : k < 30) (hpre : ∀ j, j < k → nonTerminal (b.status j))
    (hsucc : (b.status k).state = "SUCCEEDED")
    (data : List EventData)
    (hparse : parseAthenaResults (b.rows.take 1000) = .ok data) :
    (pollLoop b qid 30 0).1 = .ok ⟨qid, "success", data⟩ := by
  have hreach := pollLoop_reach b qid k 30 0 hk (fun j hj => by
    simpa using hpre j hj)
  obtain ⟨m, hm⟩ : ∃ m, 30 - k = m + 1 := ⟨29 - k, by omega⟩
  rw [hm] at hreach
  rw [hreach]
  simp [pollLoop, Nat.zero_add, hsucc, hparse]

/-- C4: when the polled status reaches SUCCEEDED (at some attempt `k < 30`),
the query fetches at most 1000 result rows and parses them: the first
fetched row is the column header and each remaining row becomes a
string-keyed mapping whose keys are header names; no fetched rows and a
header-only fetch both give an empty result list, not an error. -/
theorem c4_succeeded_query_parses_results (b : AthenaBackend)
    (sql qid : String) (data : List EventData) (k : Nat)
    (hstart : b.start sql = .ok qid) (hk : k < 30)
    (hpre : ∀ j, j < k → nonTerminal (b.status j))
    (hsucc : (b.status k).state = "SUCCEEDED")
    (hparse : parseAthenaResults (b.rows.take 1000) = .ok data) :
    (execute_athena_query b sql).1 = .ok ⟨qid, "success", data⟩ ∧
    data.length ≤ 999 ∧
    (b.rows = [] → data = []) ∧
    (∀ hd, b.rows.take 1000 = [hd] → data = []) ∧
    (∀ hd tl, b.rows.take 1000 = hd :: tl →
      ∃ cols, extractHeader hd = .ok cols ∧
        parseDataRows cols tl = .ok data ∧
        data.length = tl.length ∧
        ∀ d ∈ data, ∀ kv ∈ d, kv.1 ∈ cols) := by
  have hloop := pollLoop_success b qid k hk hpre hsucc data hparse
  have hmain : (execute_athena_query b sql).1 = .ok ⟨qid, "success", data⟩ := by
    simp [execute_athena_query, hstart, hloop]
  refine ⟨hmain, ?_, ?_, ?_, ?_⟩
  case _ =>
    cases htake : b.rows.take 1000 with
    | nil =>
        rw [htake] at hparse
        simp only [parseAthenaResults] at hparse
        cases hparse
        simp
    | cons hd tl =>
        rw [htake] at hparse
        simp only [parseAthenaResults] at hparse
        cases hcols : extractHeader hd with
        | error e => rw [hcols] at hparse; cases hparse
        | ok cols =>
            rw [hcols] at hparse
            have hlen := (parseDataRows_spec cols tl data hparse).1
            have htl : tl.length + 1 ≤ 1000 := by
              have := List.length_take_le 1000 b.rows
              rw [htake] at this
              simpa using this
            omega
  case _ =>
    intro hrows
    rw [hrows] at hparse
    simp only [List.take_nil, parseAthenaResults] at hparse
    cases hparse
    rfl
  case _ =>
    intro hd htake
    rw [htake] at hparse
    simp only [parseAthenaResults] at hparse
    cases hcols : extractHeader hd with
    | error e => rw [hcols] at hparse; cases hparse
    | ok cols =>
        rw [hcols] at hparse
        simp only [parseDataRows] at hparse
        cases hparse
        rfl
  case _ =>
    intro hd tl htake
    rw [htake] at hparse
    simp only [parseAthenaResults] at hparse
    cases hcols : extractHeader hd with
    | error e => rw [hcols] at hparse; cases hparse
    | ok cols =>
        rw [hcols] at hparse
        obtain ⟨hlen, hkeys⟩ := parseDataRows_spec cols tl data hparse
        exact ⟨cols, rfl, hparse, hlen, hkeys⟩

/-- Witness for C4: a backend succeeding on the first poll with a header row
and two data rows yields the two rows keyed by the header names. -/
theorem c4_succeeded_query_parses_results_witness :
    (execute_athena_query
        ⟨fun _ => .ok "qs",
         fun _ => ⟨"SUCCEEDED", none⟩,
         [[some "user_id", some "count"],
          [some "u1", some "3"],
          [some "u2", none]]⟩ "SELECT user_id, count(1)").1 =
      .ok ⟨"qs", "success",
        [[("user_id", "u1"), ("count", "3")],
         [("user_id", "u2"), ("count", "")]]⟩ := by
  have h := c4_succeeded_query_parses_results
    ⟨fun _ => .ok "qs",
     fun _ => ⟨"SUCCEEDED", none⟩,
     [[some "user_id", some "count"],
      [some "u1", some "3"],
      [some "u2", none]]⟩ "SELECT user_id, count(1)" "qs"
    [[("user_id", "u1"), ("count", "3")],
     [("user_id", "u2"), ("count", "")]] 0 rfl (by omega)
    (fun j hj => absurd hj (by omega)) rfl rfl
  exact h.1

theorem processChunkGo_events_length (putRes : EventData → Except String Unit)
    (nowIso : String) (nowUnix : Nat) :
    ∀ l : List EventData,
      (processChunkGo putRes nowIso nowUnix l).2.1.length = l.length := by
  intro l
  induction l with
  | nil => rfl
  | cons ev rest ih =>
      simp only [processChunkGo]
      cases hi : injectMeta nowIso nowUnix ev with
      | keyError ev₁ => simp
      | ok ev₁ eid =>
          cases hp : putRes ev₁ with
          | error e => simp [hp]
          | ok u => simp [hp, ih]

theorem batchChunks_length (l : List EventData) :
    (batchChunks l).length = (l.length + 24) / 25 := by
  induction l using batchChunks.induct with
  | case1 => rw [batchChunks]; simp
  | case2 l h ih =>
      rw [batchChunks, if_neg h]
      have hne : l.length ≠ 0 := fun h0 => h (List.length_eq_zero.mp h0)
      simp only [List.length_cons, ih, List.length_drop]
      omega

theorem batchChunks_le25 (l : List EventData) :
    ∀ c ∈ batchChunks l, c.length ≤ 25 := by
  induction l using batchChunks.induct with
  | case1 => rw [batchChunks]; simp
  | case2 l h ih =>
      rw [batchChunks, if_neg h]
      intro c hc
      rcases List.mem_cons.mp hc with rfl | hc
      · exact List.length_take_le 25 l
      · exact ih c hc

theorem foldl_batch_append
    (f : Nat × List EventData → List String × List FailedEntry) :
    ∀ (xs : List (Nat × List EventData)) (acc : List String × List FailedEntry),
      xs.foldl (fun acc ic => (acc.1 ++ (f ic).1, acc.2 ++ (f ic).2)) acc =
        (acc.1 ++ (xs.map fun ic => (f ic).1).flatten,
         acc.2 ++ (xs.map fun ic => (f ic).2).flatten) := by
  intro xs
  induction xs with
  | nil => intro acc; simp
  | cons x rest ih =>
      intro acc
      simp only [List.foldl_cons]
      rw [ih]
      simp [List.append_assoc]

/-- C2: `store_events_batch` partitions its input into chunks of 25 (so a
30-event input makes exactly 2 chunked writes), accumulates per-chunk
successes and failures across all chunks (a chunk failure never aborts
later chunks, and the function is total — it never raises), and its failure
policy is chunk-granular: when a chunk fails, its `failed` entries are
exactly all the events of that chunk — one entry per event — sharing one
error message. -/
theorem c2_store_events_batch_chunk_granular
    (putRes : EventData → Except String Unit)
    (flushRes : Nat → Except String Unit) (nowIso : String) (nowUnix : Nat)
    (events : List EventData) :
    (batchChunks events).length = (events.length + 24) / 25 ∧
    (∀ c ∈ batchChunks events, c.length ≤ 25) ∧
    (store_events_batch putRes flushRes nowIso nowUnix events).successful =
      ((batchChunks events).enum.map fun ic =>
        (processChunk putRes (flushRes ic.1) nowIso nowUnix ic.2).1).flatten ∧
    (store_events_batch putRes flushRes nowIso nowUnix events).failed =
      ((batchChunks events).enum.map fun ic =>
        (processChunk putRes (flushRes ic.1) nowIso nowUnix ic.2).2).flatten ∧
    (∀ i c, (batchChunks events).get? i = some c →
      (processChunk putRes (flushRes i) nowIso nowUnix c).2 = [] ∨
      ∃ e, (processChunk putRes (flushRes i) nowIso nowUnix c).2 =
          (processChunkGo putRes nowIso nowUnix c).2.1.map
            (fun ev => ⟨ev, e⟩) ∧
        (processChunkGo putRes nowIso nowUnix c).2.1.length = c.length) := by
  refine ⟨batchChunks_length events, batchChunks_le25 events, ?_, ?_, ?_⟩
  · simp only [store_events_batch]
    rw [foldl_batch_append
      (fun ic => processChunk putRes (flushRes ic.1) nowIso nowUnix ic.2)]
    simp
  · simp only [store_events_batch]
    rw [foldl_batch_append
      (fun ic => processChunk putRes (flushRes ic.1) nowIso nowUnix ic.2)]
    simp
  · intro i c _
    cases hgo : (processChunkGo putRes nowIso nowUnix c).2.2 with
    | some e =>
        right
        exact ⟨e, by simp [processChunk, hgo],
          processChunkGo_events_length putRes nowIso nowUnix c⟩
    | none =>
        cases hf : flushRes i with
        | error e =>
            right
            exact ⟨e, by simp [processChunk, hgo, hf],
              processChunkGo_events_length putRes nowIso nowUnix c⟩
        | ok u => left; simp [processChunk, hgo, hf]

/-- Witness for C2: a 30-event input is partitioned into exactly 2 chunked
writes. -/
theorem c2_store_events_batch_chunk_granular_witness :
    (batchChunks
      (List.replicate 30
        [("user_id", "u"), ("event_type", "t"), ("event_id", "e")])).length =
      2 := by
  have h := (c2_store_events_batch_chunk_granular (fun _ => .ok ())
    (fun _ => .ok ()) "2024-01-01T00:00:00" 100
    (List.replicate 30
      [("user_id", "u"), ("event_type", "t"), ("event_id", "e")])).1
  simpa using h

theorem c7batch_eval :
    c7batch =
      ⟨["E1"],
       [⟨c7evA, "\x27user_id\x27"⟩,
        ⟨[("event_type", "view"), ("timestamp", "2024-01-02T00:00:00")],
          "\x27user_id\x27"⟩]⟩ := by
  have hch : batchChunks [c7evA, c7evB] = [[c7evA, c7evB]] := by
    rw [batchChunks]
    simp
    rw [batchChunks]
    simp
  rw [c7batch, store_events_batch]
  rw [hch]
  simp [processChunk, processChunkGo, injectMeta, dictSetDefault, dictSet,
    dictGet, c7evA, c7evB]

/-- C7: `successful` entries recorded before a chunk failure are not rolled
back: in the concrete C7 batch, event `E1` is reported successful, yet the
whole chunk (both events, `E1` included) is also reported failed with the
shared error, so the successful and failed lists overlap. -/
theorem c7_successful_failed_overlap :
    "E1" ∈ c7batch.successful ∧
    c7batch.failed.length = 2 ∧
    c7batch.failed.map FailedEntry.error =
      ["\x27user_id\x27", "\x27user_id\x27"] ∧
    (∃ fe, fe ∈ c7batch.failed ∧ dictGet fe.event "event_id" = some "E1") := by
  rw [c7batch_eval]
  refine ⟨by simp, by simp, by simp, ⟨⟨c7evA, "\x27user_id\x27"⟩, by simp,
    by simp [c7evA, dictGet]⟩⟩

